import Mathlib

/-!
# Ledger-safe POS ingestion simulator: verified model

A shallow embedding of the ingestion / exception-handling core
(`src/api/app/main.py` of `ledger-safe-pos-sim`): the JSON canonicalizer and
content hash, the RFC 7396 merge-patch engine, and the ingest / resolve
transitions over the relational state (Bronze store, idempotency ledger,
exception registry, audit log).
-/

set_option maxRecDepth 16384

namespace LedgerSafe

/-! ## JSON values

JSON values as decoded by Python's `json` module.  Numbers are modelled as
integers (the payloads the system manipulates use integral and string fields;
no claim depends on float serialization).  Objects are association lists;
Python dicts cannot hold duplicate keys, so well-formed values have `Nodup`
keys, which theorems assume where it matters. -/

inductive Json where
  | null : Json
  | bool (b : Bool) : Json
  | num (n : Int) : Json
  | str (s : String) : Json
  | arr (elems : List Json) : Json
  | obj (kvs : List (String × Json)) : Json
deriving Repr

/-! ## Canonicalizer

`canonical_json` embeds
`json.dumps(obj, sort_keys=True, separators=(",", ":"), ensure_ascii=False)`:
object keys sorted lexicographically (Python sorts `str` by code point, as
does `String`'s linear order), separators without whitespace, non-ASCII
preserved literally, strings escaped the way `json.dumps` escapes them
(`"` and `\\` backslash-escaped, control characters as the two-character
escapes `\n`, `\t`, `\r`, `\b`, `\f` or as lowercase `\u00xx`). -/

def hexDigitChar (n : Nat) : Char :=
  match n with
  | 0 => '0' | 1 => '1' | 2 => '2' | 3 => '3'
  | 4 => '4' | 5 => '5' | 6 => '6' | 7 => '7'
  | 8 => '8' | 9 => '9' | 10 => 'a' | 11 => 'b'
  | 12 => 'c' | 13 => 'd' | 14 => 'e' | _ => 'f'

def escapeChar (c : Char) : List Char :=
  if c = '"' then ['\\', '"']
  else if c = '\\' then ['\\', '\\']
  else if c = '\n' then ['\\', 'n']
  else if c = '\t' then ['\\', 't']
  else if c = '\r' then ['\\', 'r']
  else if c = '\x08' then ['\\', 'b']
  else if c = '\x0c' then ['\\', 'f']
  else if c.toNat < 32 then
    ['\\', 'u', '0', '0', hexDigitChar (c.toNat / 16), hexDigitChar (c.toNat % 16)]
  else [c]

/-- JSON string literal serialization (quote and escape), as `json.dumps`
renders a `str` with `ensure_ascii=False`. -/
def jsonQuote (s : String) : String :=
  "\"" ++ String.mk (s.data.flatMap escapeChar) ++ "\""

/-- Comma-join a list of already serialized fragments. -/
def joinComma : List String → String
  | [] => ""
  | [x] => x
  | x :: xs => x ++ "," ++ joinComma xs

/-- Lexicographic code-point comparison of character lists: exactly how
Python compares `str` values (and hence how `sorted` and
`json.dumps(sort_keys=True)` order keys). -/
def charListLe : List Char → List Char → Bool
  | [], _ => true
  | _ :: _, [] => false
  | a :: as, b :: bs =>
    if a.toNat < b.toNat then true
    else if b.toNat < a.toNat then false
    else charListLe as bs

/-- Python string order `a <= b` (code-point lexicographic). -/
def strLe (a b : String) : Bool := charListLe a.data b.data

/-- Order on key-value pairs used by `sort_keys`: compare keys only. -/
def keyLE (a b : String × String) : Prop := strLe a.1 b.1 = true

instance : DecidableRel keyLE := fun a b => inferInstanceAs (Decidable (_ = true))

/-- Strict key order on serialized pairs: below in `keyLE` and with distinct
keys.  Vacuously antisymmetric, which is what `eq_of_perm_of_sorted` needs. -/
def keyLT (a b : String × String) : Prop := keyLE a b ∧ a.1 ≠ b.1

/-- Sort (key, serialized-value) pairs by key, stably (Python's `sorted` and
`json.dumps(sort_keys=True)` are stable). -/
def sortPairs (ps : List (String × String)) : List (String × String) :=
  List.insertionSort keyLE ps

/-- Serialize the sorted members of an object: `"k":v` fragments joined by
commas, keys sorted lexicographically. -/
def renderObj (ps : List (String × String)) : String :=
  joinComma ((sortPairs ps).map (fun p => jsonQuote p.1 ++ ":" ++ p.2))

mutual

/-- Embeds `canonical_json` (main.py): stable JSON serialization for hashing
(order-independent), i.e. `json.dumps(obj, sort_keys=True,
separators=(",", ":"), ensure_ascii=False)`. -/
def canonical_json : Json → String
  | .null => "null"
  | .bool b => cond b "true" "false"
  | .num n => toString n
  | .str s => jsonQuote s
  | .arr xs => "[" ++ joinComma (canonList xs) ++ "]"
  | .obj kvs => "\x7b" ++ renderObj (canonPairs kvs) ++ "\x7d"
termination_by structural v => v

/-- Serialize each array element. -/
def canonList : List Json → List String
  | [] => []
  | x :: xs => canonical_json x :: canonList xs
termination_by structural l => l

/-- Pair each object key with its serialized value (sorting happens after,
in `renderObj`; the comparator looks only at keys, so this is equivalent to
sorting the items first). -/
def canonPairs : List (String × Json) → List (String × String)
  | [] => []
  | (k, v) :: rest => (k, canonical_json v) :: canonPairs rest
termination_by structural l => l

end

/-! ## SHA-256 (`hashlib.sha256(...).hexdigest()`)

The full FIPS 180-4 SHA-256, over bytes (`Nat < 256`), with 32-bit words as
`Nat` reduced mod `2^32`.  `strBytes` is UTF-8 encoding (`str.encode("utf-8")`). -/

def utf8Bytes (c : Nat) : List Nat :=
  if c < 128 then [c]
  else if c < 2048 then
    [192 + c / 64, 128 + c % 64]
  else if c < 65536 then
    [224 + c / 4096, 128 + (c / 64) % 64, 128 + c % 64]
  else
    [240 + c / 262144, 128 + (c / 4096) % 64, 128 + (c / 64) % 64, 128 + c % 64]

def strBytes (s : String) : List Nat :=
  s.data.flatMap (fun ch => utf8Bytes ch.toNat)

def MOD32 : Nat := 4294967296

def w32 (n : Nat) : Nat := n % MOD32

def wadd (a b : Nat) : Nat := (a + b) % MOD32

def rotr (n x : Nat) : Nat := ((x >>> n) ||| (x <<< (32 - n))) % MOD32

def wnot (x : Nat) : Nat := Nat.xor x 4294967295

def bigSigma0 (x : Nat) : Nat := Nat.xor (Nat.xor (rotr 2 x) (rotr 13 x)) (rotr 22 x)

def bigSigma1 (x : Nat) : Nat := Nat.xor (Nat.xor (rotr 6 x) (rotr 11 x)) (rotr 25 x)

def smallSigma0 (x : Nat) : Nat := Nat.xor (Nat.xor (rotr 7 x) (rotr 18 x)) (x >>> 3)

def smallSigma1 (x : Nat) : Nat := Nat.xor (Nat.xor (rotr 17 x) (rotr 19 x)) (x >>> 10)

def chFn (e f g : Nat) : Nat := Nat.xor (Nat.land e f) (Nat.land (wnot e) g)

def majFn (a b c : Nat) : Nat := Nat.xor (Nat.xor (Nat.land a b) (Nat.land a c)) (Nat.land b c)

def sha256K : List Nat :=
  [1116352408, 1899447441, 3049323471, 3921009573,
   961987163, 1508970993, 2453635748, 2870763221,
   3624381080, 310598401, 607225278, 1426881987,
   1925078388, 2162078206, 2614888103, 3248222580,
   3835390401, 4022224774, 264347078, 604807628,
   770255983, 1249150122, 1555081692, 1996064986,
   2554220882, 2821834349, 2952996808, 3210313671,
   3336571891, 3584528711, 113926993, 338241895,
   666307205, 773529912, 1294757372, 1396182291,
   1695183700, 1986661051, 2177026350, 2456956037,
   2730485921, 2820302411, 3259730800, 3345764771,
   3516065817, 3600352804, 4094571909, 275423344,
   430227734, 506948616, 659060556, 883997877,
   958139571, 1322822218, 1537002063, 1747873779,
   1955562222, 2024104815, 2227730452, 2361852424,
   2428436474, 2756734187, 3204031479, 3329325298]

structure Hash8 where
  a : Nat
  b : Nat
  c : Nat
  d : Nat
  e : Nat
  f : Nat
  g : Nat
  h : Nat
deriving Repr, DecidableEq

def sha256Init : Hash8 :=
  ⟨1779033703, 3144134277, 1013904242, 2773480762, 1359893119, 2600822924, 528734635, 1541459225⟩

def lenBytes (n : Nat) : List Nat :=
  [(n >>> 56) % 256, (n >>> 48) % 256, (n >>> 40) % 256, (n >>> 32) % 256,
   (n >>> 24) % 256, (n >>> 16) % 256, (n >>> 8) % 256, n % 256]

def padMessage (msg : List Nat) : List Nat :=
  let L := msg.length
  let k := (120 - (L + 1) % 64) % 64
  msg ++ 128 :: List.replicate k 0 ++ lenBytes (8 * L)

def bytesToWords : List Nat → List Nat
  | a :: b :: c :: d :: rest => (((a * 256 + b) * 256 + c) * 256 + d) :: bytesToWords rest
  | _ => []

/-- Chunk the 32-bit words of the padded message into 512-bit (16-word)
blocks.  The padded message length is a multiple of 64 bytes, so the word
list is consumed exactly. -/
def wordsToBlocks : List Nat → List (List Nat)
  | w0 :: w1 :: w2 :: w3 :: w4 :: w5 :: w6 :: w7 ::
    w8 :: w9 :: w10 :: w11 :: w12 :: w13 :: w14 :: w15 :: rest =>
    [w0, w1, w2, w3, w4, w5, w6, w7, w8, w9, w10, w11, w12, w13, w14, w15] ::
      wordsToBlocks rest
  | _ => []

def extendStep (ws : List Nat) : List Nat :=
  let n := ws.length
  ws ++ [w32 (smallSigma1 (ws.getD (n - 2) 0) + ws.getD (n - 7) 0 +
              smallSigma0 (ws.getD (n - 15) 0) + ws.getD (n - 16) 0)]

def schedule (w16 : List Nat) : List Nat :=
  (List.range 48).foldl (fun ws _ => extendStep ws) w16

def roundStep (st : Hash8) (kw : Nat × Nat) : Hash8 :=
  let t1 := w32 (st.h + bigSigma1 st.e + chFn st.e st.f st.g + kw.1 + kw.2)
  let t2 := w32 (bigSigma0 st.a + majFn st.a st.b st.c)
  ⟨w32 (t1 + t2), st.a, st.b, st.c, wadd st.d t1, st.e, st.f, st.g⟩

def compressBlock (st : Hash8) (block : List Nat) : Hash8 :=
  let ws := schedule block
  let r := (sha256K.zip ws).foldl roundStep st
  ⟨wadd st.a r.a, wadd st.b r.b, wadd st.c r.c, wadd st.d r.d,
   wadd st.e r.e, wadd st.f r.f, wadd st.g r.g, wadd st.h r.h⟩

def sha256Bytes (msg : List Nat) : Hash8 :=
  (wordsToBlocks (bytesToWords (padMessage msg))).foldl compressBlock sha256Init

/-- Lowercase hex rendering of one 32-bit word, eight digits. -/
def hex8 (w : Nat) : String :=
  String.mk [hexDigitChar ((w >>> 28) % 16), hexDigitChar ((w >>> 24) % 16),
             hexDigitChar ((w >>> 20) % 16), hexDigitChar ((w >>> 16) % 16),
             hexDigitChar ((w >>> 12) % 16), hexDigitChar ((w >>> 8) % 16),
             hexDigitChar ((w >>> 4) % 16), hexDigitChar (w % 16)]

/-- Embeds `sha256_hex` (main.py):
`hashlib.sha256(s.encode("utf-8")).hexdigest()` — the lowercase hex SHA-256
digest of the UTF-8 encoding of `s`. -/
def sha256_hex (s : String) : String :=
  let d := sha256Bytes (strBytes s)
  hex8 d.a ++ hex8 d.b ++ hex8 d.c ++ hex8 d.d ++ hex8 d.e ++ hex8 d.f ++ hex8 d.g ++ hex8 d.h

/-- The spec's named composite operation `contentHash(value)`:
`sha256_hex(canonical_json(value))`, exactly as the two appear composed at
every use site in main.py. -/
def contentHash (v : Json) : String := sha256_hex (canonical_json v)

/-! ## Patch Engine (`json_merge_patch`)

Python-dict operations on association lists (a Python dict has unique keys;
`dictInsert` replaces in place like `d[k] = v`, `dictErase` removes like
`d.pop(k, None)`, `dictGet?` like `d.get(k)`). -/

def dictGet? (kvs : List (String × Json)) (k : String) : Option Json :=
  match kvs.find? (fun kv => kv.1 == k) with
  | some kv => some kv.2
  | none => none

def dictInsert (kvs : List (String × Json)) (k : String) (v : Json) : List (String × Json) :=
  match kvs with
  | [] => [(k, v)]
  | kv :: rest => if kv.1 == k then (k, v) :: rest else kv :: dictInsert rest k v

def dictErase (kvs : List (String × Json)) (k : String) : List (String × Json) :=
  match kvs with
  | [] => []
  | kv :: rest => if kv.1 == k then rest else kv :: dictErase rest k

mutual

/-- Embeds `json_merge_patch` (main.py), RFC 7396 style JSON Merge Patch:
if `patch` is not a dict, return `patch`; else, starting from `target` when it
is a dict (and from the empty dict otherwise), run the
`for k, v in patch.items()` loop over the patch's items.  (Python's
`copy.deepcopy` calls are identity on our pure values.) -/
def json_merge_patch (target patch : Json) : Json :=
  match patch with
  | .obj pkvs =>
    let base : List (String × Json) :=
      match target with
      | .obj tkvs => tkvs
      | _ => []
    .obj (mergeLoop base pkvs)
  | p => p
termination_by structural patch

/-- The `for k, v in patch.items()` loop of `json_merge_patch`: `null` deletes
the key, a nested object recurses when the accumulated result's value at the
key is also an object (otherwise replaces), and any other value replaces. -/
def mergeLoop (result : List (String × Json)) : List (String × Json) → List (String × Json)
  | [] => result
  | (k, v) :: rest =>
    match v with
    | .null => mergeLoop (dictErase result k) rest
    | .obj pkvs =>
      (match dictGet? result k with
       | some (.obj tkvs) =>
         mergeLoop (dictInsert result k (json_merge_patch (.obj tkvs) (.obj pkvs))) rest
       | _ => mergeLoop (dictInsert result k (.obj pkvs)) rest)
    | other => mergeLoop (dictInsert result k other) rest
termination_by structural l => l

end

/-! ## Data model

The four tables of the persistent schema (§3 of the spec): `events_raw`
(Bronze), `events_processed` (idempotency ledger), `exceptions`, `audit_log`.
Timestamps are modelled by a logical clock (`DB.clock`): each transaction
reads one consistent `now` and the clock advances between transactions, which
captures everything the claims use about `now()`.  Statuses are carried as
the literal strings the database stores and the code compares
(`'processed'`, `'quarantined'`, `'ignored'`, `'open'`, `'resolved'`).
`exception_id`s are opaque unique identifiers (UUIDs in the database),
modelled as a `Nat` counter. -/

structure RawEvent where
  raw_id : Nat
  tenant_id : String
  store_id : String
  source_system : String
  schema_version : String
  received_at : Nat
  occurred_at : String
  event_id : String
  source_event_id : Option String
  event_type : String
  txn_id : String
  payload_hash : String
  payload_json : Json
deriving Repr

structure IdemRecord where
  tenant_id : String
  idempotency_key : String
  first_seen_at : Nat
  last_seen_at : Nat
  status : String
  first_raw_id : Nat
  last_raw_id : Nat
  payload_hash_first : String
  payload_hash_last : String
  processed_at : Option Nat
  last_error_code : Option String
  last_exception_id : Option Nat
deriving Repr, DecidableEq

structure Exc where
  exception_id : Nat
  tenant_id : String
  raw_id : Nat
  idempotency_key : String
  reason_code : String
  details_json : Json
  status : String
  created_at : Nat
  resolved_at : Option Nat
  resolution_action : Option String
  resolution_notes : Option String
  resolution_actor : Option String
  override_patch : Option Json
  replay_attempts : Nat
  last_replay_at : Option Nat
  last_replay_status : Option String
deriving Repr

structure AuditEntry where
  actor : String
  action : String
  object_type : String
  object_id : Nat
  notes : String
  after_json : Json
  at_ts : Nat
deriving Repr

structure DB where
  events_raw : List RawEvent
  events_processed : List IdemRecord
  exceptions : List Exc
  audit_log : List AuditEntry
  next_raw_id : Nat
  next_exception_id : Nat
  clock : Nat
deriving Repr

/-- The empty database: no rows, serial counters at 1 (Postgres serials start
at 1). -/
def DB.empty : DB :=
  { events_raw := [], events_processed := [], exceptions := [], audit_log := [],
    next_raw_id := 1, next_exception_id := 1, clock := 0 }

/-- Embeds `SELECT ... FROM events_processed WHERE tenant_id = t AND
idempotency_key = k` (the unique constraint makes at most one row match). -/
def findRecord (l : List IdemRecord) (t k : String) : Option IdemRecord :=
  l.find? (fun r => r.tenant_id == t && r.idempotency_key == k)

/-- Embeds `UPDATE events_processed SET ... WHERE tenant_id = t AND
idempotency_key = k`: apply `f` to every matching row. -/
def updateRecord (l : List IdemRecord) (t k : String) (f : IdemRecord → IdemRecord) :
    List IdemRecord :=
  l.map (fun r => if r.tenant_id == t && r.idempotency_key == k then f r else r)

/-- Embeds `SELECT ... FROM exceptions WHERE exception_id = i`. -/
def findExc (l : List Exc) (i : Nat) : Option Exc :=
  l.find? (fun e => e.exception_id == i)

/-- Embeds `UPDATE exceptions SET ... WHERE exception_id = i`. -/
def updateExc (l : List Exc) (i : Nat) (f : Exc → Exc) : List Exc :=
  l.map (fun e => if e.exception_id == i then f e else e)

/-- Embeds `_fetch_events_raw` (main.py): `SELECT ... FROM events_raw WHERE
raw_id = %s`.  The id is an `Int` because the resolve body's
`canonical_raw_id` is an arbitrary client-supplied integer. -/
def fetch_events_raw (l : List RawEvent) (i : Int) : Option RawEvent :=
  l.find? (fun r => (r.raw_id : Int) == i)

/-- Embeds `ALLOWED_EVENT_TYPES` (main.py): the MVP set of accepted event types. -/
def ALLOWED_EVENT_TYPES : List String := ["SALE", "RETURN", "CORRECTION", "CANCEL", "VOID"]

/-- Embeds `ALLOWED_RESOLUTION_ACTIONS` (main.py). -/
def ALLOWED_RESOLUTION_ACTIONS : List String :=
  ["mark_resolved_no_replay", "override_and_replay"]

/-- Value of `sorted(list(ALLOWED_EVENT_TYPES))` as it appears in exception details. -/
def sortedAllowedEventTypes : List String :=
  ["CANCEL", "CORRECTION", "RETURN", "SALE", "VOID"]

/-! ## Python string helpers -/

/-- The whitespace characters `str.strip()` removes (the ASCII ones; the
payloads in scope are ASCII-keyed). -/
def pyIsSpace (c : Char) : Bool :=
  c == ' ' || c == '\t' || c == '\n' || c == '\r' || c == '\x0b' || c == '\x0c'

/-- Python `str.strip()`: drop leading and trailing whitespace. -/
def pyStrip (s : String) : String :=
  String.mk (((s.data.dropWhile pyIsSpace).reverse.dropWhile pyIsSpace).reverse)

/-- Python `str.upper()` (ASCII case mapping, which covers the event types in
scope). -/
def pyUpper (s : String) : String :=
  String.mk (s.data.map Char.toUpper)

/-! ## Envelope validation

Models pydantic's `EventIn.model_validate` (an external library call):
the payload must be a JSON object; each required field must be a string that
is non-empty after whitespace stripping (`str_strip_whitespace=True` strips
every string field, then `min_length=1` applies); `source_event_id` is
optional; `occurred_at` must be a datetime string (modelled by a shape check
on the `YYYY-MM-DD` prefix — no claim depends on which strings parse as
datetimes).  Extra fields are allowed and preserved verbatim in the Bronze
payload. -/

structure EventIn where
  schema_version : String
  tenant_id : String
  store_id : String
  source_system : String
  event_id : String
  source_event_id : Option String
  event_type : String
  occurred_at : String
  txn_id : String
deriving Repr, DecidableEq

/-- A required pydantic `str` field with `min_length=1` under
`str_strip_whitespace=True`. -/
def reqStr (kvs : List (String × Json)) (name : String) : Option String :=
  match dictGet? kvs name with
  | some (.str s) =>
    let t := pyStrip s
    if t == "" then none else some t
  | _ => none

/-- The optional `source_event_id` field (absent or `null` is `None`). -/
def optStr (kvs : List (String × Json)) (name : String) : Option (Option String) :=
  match dictGet? kvs name with
  | none => some none
  | some .null => some none
  | some (.str s) => some (some (pyStrip s))
  | some _ => none

/-- Does the string look like an ISO date(-time)?  Stands in for pydantic's
datetime parsing. -/
def isDatetimeLike (s : String) : Bool :=
  match s.data with
  | y1 :: y2 :: y3 :: y4 :: '-' :: m1 :: m2 :: '-' :: d1 :: d2 :: _ =>
    y1.isDigit && y2.isDigit && y3.isDigit && y4.isDigit &&
      m1.isDigit && m2.isDigit && d1.isDigit && d2.isDigit
  | _ => false

def validateEvent (payload : Json) : Option EventIn :=
  match payload with
  | .obj kvs => do
    let schema_version ← reqStr kvs "schema_version"
    let tenant_id ← reqStr kvs "tenant_id"
    let store_id ← reqStr kvs "store_id"
    let source_system ← reqStr kvs "source_system"
    let event_id ← reqStr kvs "event_id"
    let source_event_id ← optStr kvs "source_event_id"
    let event_type ← reqStr kvs "event_type"
    let occurred_at ←
      match dictGet? kvs "occurred_at" with
      | some (.str s) => if isDatetimeLike s then some s else none
      | _ => none
    let txn_id ← reqStr kvs "txn_id"
    some { schema_version, tenant_id, store_id, source_system, event_id,
           source_event_id, event_type, occurred_at, txn_id }
  | _ => none

/-! ## Ingest Transition (`POST /v1/events`, `ingest_event` in main.py) -/

/-- The success body of `POST /v1/events` (`result` is the literal string the
endpoint returns: `"processed"`, `"duplicate"` or `"quarantined"`). -/
structure IngestOk where
  status_code : Nat
  tenant_id : String
  idempotency_key : String
  raw_id : Nat
  result : String
  exception_id : Option Nat
  reason_code : Option String
deriving Repr, DecidableEq

/-- Response of the ingest endpoint: a success body, or an
`HTTPException`-style client error (`INVALID_JSON`, `VALIDATION_ERROR`). -/
inductive IngestResponse where
  | ok (r : IngestOk)
  | clientError (status_code : Nat) (error : String)
deriving Repr, DecidableEq

/-- HTTP status of an ingest response. -/
def IngestResponse.statusCode : IngestResponse → Nat
  | .ok r => r.status_code
  | .clientError c _ => c

/-- Embeds `_create_exception_and_quarantine` (main.py): inserts an open
Exception row, flips the idempotency record to `quarantined` (recording the
reason and the new exception id, nulling `processed_at`), and appends an
`action='quarantine'` audit entry.  Returns the new exception id. -/
def create_exception_and_quarantine (db : DB) (tenant_id : String) (raw_id : Nat)
    (idempotency_key reason_code : String) (details : Json) (actor : String) :
    DB × Nat :=
  let ex_id := db.next_exception_id
  let ex : Exc :=
    { exception_id := ex_id, tenant_id, raw_id, idempotency_key, reason_code,
      details_json := details, status := "open", created_at := db.clock,
      resolved_at := none, resolution_action := none, resolution_notes := none,
      resolution_actor := none, override_patch := none, replay_attempts := 0,
      last_replay_at := none, last_replay_status := none }
  let entry : AuditEntry :=
    { actor, action := "quarantine", object_type := "exception", object_id := ex_id,
      notes := reason_code,
      after_json := .obj [("reason_code", .str reason_code), ("raw_id", .num raw_id)],
      at_ts := db.clock }
  ({ db with
      exceptions := db.exceptions ++ [ex],
      next_exception_id := ex_id + 1,
      events_processed :=
        updateRecord db.events_processed tenant_id idempotency_key
          (fun q => { q with status := "quarantined",
                             last_error_code := some reason_code,
                             last_exception_id := some ex_id,
                             processed_at := none }),
      audit_log := db.audit_log ++ [entry] },
   ex_id)

/-- Embeds `ingest_event` (main.py), `POST /v1/events`.  The request body is
`none` when it is not parseable JSON (`request.json()` raised).  One
transaction: Bronze append, idempotency upsert
(`INSERT ... ON CONFLICT DO UPDATE ... RETURNING`), then classification;
client errors raised before the transaction leave the state untouched. -/
def ingest_event (db : DB) (body : Option Json) : DB × IngestResponse :=
  match body with
  | none => (db, .clientError 400 "INVALID_JSON")
  | some payload =>
    let payload_hash := sha256_hex (canonical_json payload)
    match validateEvent payload with
    | none => (db, .clientError 400 "VALIDATION_ERROR")
    | some ev =>
      let event_type := pyStrip (pyUpper ev.event_type)
      let idempotency_key := ev.event_id
      let now := db.clock
      -- 1) Bronze write (always append)
      let raw_id := db.next_raw_id
      let raw : RawEvent :=
        { raw_id, tenant_id := ev.tenant_id, store_id := ev.store_id,
          source_system := ev.source_system, schema_version := ev.schema_version,
          received_at := now, occurred_at := ev.occurred_at,
          event_id := ev.event_id, source_event_id := ev.source_event_id,
          event_type, txn_id := ev.txn_id, payload_hash, payload_json := payload }
      let db₁ : DB := { db with events_raw := db.events_raw ++ [raw], next_raw_id := raw_id + 1 }
      -- 2) Idempotency upsert; `inserted` is `(xmax = 0)`, the RETURNING row
      -- carries the pre-update status / first hash / first raw id.
      match findRecord db₁.events_processed ev.tenant_id idempotency_key with
      | none =>
        let rec₀ : IdemRecord :=
          { tenant_id := ev.tenant_id, idempotency_key,
            first_seen_at := now, last_seen_at := now, status := "processed",
            first_raw_id := raw_id, last_raw_id := raw_id,
            payload_hash_first := payload_hash, payload_hash_last := payload_hash,
            processed_at := some now, last_error_code := none, last_exception_id := none }
        let db₂ : DB := { db₁ with events_processed := db₁.events_processed ++ [rec₀] }
        -- 3) First time: minimal gates
        if ALLOWED_EVENT_TYPES.contains event_type then
          ({ db₂ with clock := db₂.clock + 1 },
           .ok { status_code := 201, tenant_id := ev.tenant_id, idempotency_key,
                 raw_id, result := "processed", exception_id := none, reason_code := none })
        else
          let details : Json := .obj
            [("event_type", .str event_type),
             ("allowed_event_types", .arr (sortedAllowedEventTypes.map .str)),
             ("message", .str "Event type is not supported by the ingestion simulator MVP.")]
          let p := create_exception_and_quarantine db₂ ev.tenant_id raw_id
            idempotency_key "UNKNOWN_EVENT_TYPE" details "system"
          ({ p.1 with clock := p.1.clock + 1 },
           .ok { status_code := 202, tenant_id := ev.tenant_id, idempotency_key,
                 raw_id, result := "quarantined", exception_id := some p.2,
                 reason_code := some "UNKNOWN_EVENT_TYPE" })
      | some r =>
        let upd :=
          updateRecord db₁.events_processed ev.tenant_id idempotency_key
            (fun q => { q with last_seen_at := now, last_raw_id := raw_id,
                               payload_hash_last := payload_hash })
        let db₂ : DB := { db₁ with events_processed := upd }
        -- Seen before
        if r.payload_hash_first == payload_hash then
          if r.status == "quarantined" then
            ({ db₂ with clock := db₂.clock + 1 },
             .ok { status_code := 202, tenant_id := ev.tenant_id, idempotency_key,
                   raw_id, result := "quarantined", exception_id := r.last_exception_id,
                   reason_code := some "ALREADY_QUARANTINED" })
          else
            ({ db₂ with clock := db₂.clock + 1 },
             .ok { status_code := 200, tenant_id := ev.tenant_id, idempotency_key,
                   raw_id, result := "duplicate", exception_id := none, reason_code := none })
        else
          -- Conflicting duplicate => quarantine
          let details : Json := .obj
            [("message", .str "Same idempotency_key seen with different payload hash."),
             ("existing_payload_hash", .str r.payload_hash_first),
             ("new_payload_hash", .str payload_hash),
             ("first_raw_id", .num r.first_raw_id),
             ("new_raw_id", .num raw_id)]
          let p := create_exception_and_quarantine db₂ ev.tenant_id raw_id
            idempotency_key "IDEMPOTENCY_CONFLICT" details "system"
          ({ p.1 with clock := p.1.clock + 1 },
           .ok { status_code := 202, tenant_id := ev.tenant_id, idempotency_key,
                 raw_id, result := "quarantined", exception_id := some p.2,
                 reason_code := some "IDEMPOTENCY_CONFLICT" })

/-! ## Resolve Transition (`POST /v1/exceptions/{id}/resolve`,
`resolve_exception` in main.py) -/

/-- The validated resolve request body (pydantic `ResolveIn`):
`action` and `actor` are non-empty strings, `resolution_notes` defaults to
`""`, `override_patch` is a JSON object defaulting to `{}`, and
`canonical_raw_id` is an optional integer. -/
structure ResolveIn where
  action : String
  actor : String
  resolution_notes : String := ""
  override_patch : List (String × Json) := []
  canonical_raw_id : Option Int := none
deriving Repr

/-- Response of the resolve endpoint: an `HTTPException`-style error, the
no-replay success body (`replay.attempted = false`), or the replay success
body carrying the chosen canonical raw id and the final payload hash. -/
inductive ResolveResponse where
  | err (status_code : Nat) (error : String)
  | noReplay (exception_id : Nat)
  | replay (exception_id : Nat) (canonical_raw_id : Int) (final_payload_hash : String)
deriving Repr, DecidableEq

/-- HTTP status of a resolve response (success bodies are 200). -/
def ResolveResponse.statusCode : ResolveResponse → Nat
  | .err c _ => c
  | .noReplay _ => 200
  | .replay _ _ _ => 200

/-- Python `str()` of a JSON-decoded value, as used at
`str(final_payload.get("event_type", ""))`: a string is itself, numbers
print, `True`/`False`/`None` as Python spells them; containers render to
their (non-empty, bracketed) textual form — only non-emptiness and
non-membership in the allowed event-type set ever matter for those. -/
def pyStr : Json → String
  | .str s => s
  | .num n => toString n
  | .bool b => cond b "True" "False"
  | .null => "None"
  | .arr xs => "[" ++ joinComma (canonList xs) ++ "]"
  | .obj kvs => "\x7b" ++ renderObj (canonPairs kvs) ++ "\x7d"

/-- Embeds `final_payload.get("event_type", "")` followed by `str(...)`. -/
def getEventTypeRaw (j : Json) : String :=
  match j with
  | .obj kvs =>
    match dictGet? kvs "event_type" with
    | some v => pyStr v
    | none => ""
  | _ => ""

/-- Line 657 of main.py:
`canonical_raw_id = int(body.canonical_raw_id) if body.canonical_raw_id else int(ex["raw_id"])`.
Python truthiness: `None` **and `0`** both fall back to the Exception's own
`raw_id`. -/
def chosenCanonicalRawId (body : ResolveIn) (ex : Exc) : Int :=
  match body.canonical_raw_id with
  | some n => if n != 0 then n else (ex.raw_id : Int)
  | none => (ex.raw_id : Int)

/-- Embeds `resolve_exception` (main.py), `POST /v1/exceptions/{id}/resolve`.
The action gate runs before the transaction; inside the transaction the
Exception is fetched (404 if absent), must be open (409), the idempotency
record must exist (409), then the body's action dispatches.  For
`override_and_replay`, `canonical_raw_id` follows Python truthiness
(`if body.canonical_raw_id`): a supplied `0` falls back to the Exception's
own `raw_id`.  Errors roll the transaction back, leaving the state
unchanged. -/
def resolve_exception (db : DB) (exception_id : Nat) (body : ResolveIn) :
    DB × ResolveResponse :=
  if ¬ ALLOWED_RESOLUTION_ACTIONS.contains body.action then
    (db, .err 400 "INVALID_ACTION")
  else
    match findExc db.exceptions exception_id with
    | none => (db, .err 404 "NOT_FOUND")
    | some ex =>
      if ex.status != "open" then (db, .err 409 "ALREADY_RESOLVED")
      else
        match findRecord db.events_processed ex.tenant_id ex.idempotency_key with
        | none => (db, .err 409 "MISSING_IDEMPOTENCY_RECORD")
        | some _ep =>
          let now := db.clock
          if body.action == "mark_resolved_no_replay" then
            -- ---- Action: resolve without replay (ignore) ----
            let exceptions' := updateExc db.exceptions exception_id (fun e =>
              { e with status := "resolved", resolved_at := some now,
                       resolution_action := some body.action,
                       resolution_notes := some body.resolution_notes,
                       resolution_actor := some body.actor,
                       last_replay_status := some "not_replayed" })
            let records' := updateRecord db.events_processed ex.tenant_id
              ex.idempotency_key (fun q =>
                { q with status := "ignored", processed_at := some now,
                         last_error_code := some "IGNORED_BY_OPERATOR",
                         last_exception_id := some exception_id })
            let entry : AuditEntry :=
              { actor := body.actor, action := "resolve_no_replay",
                object_type := "exception", object_id := exception_id,
                notes := body.resolution_notes,
                after_json := .obj
                  [("action", .str body.action),
                   ("idempotency_key", .str ex.idempotency_key),
                   ("decision_time", .num now)],
                at_ts := now }
            ({ db with exceptions := exceptions', events_processed := records',
                       audit_log := db.audit_log ++ [entry], clock := db.clock + 1 },
             .noReplay exception_id)
          else
            -- ---- Action: override + replay ----
            let canonical_raw_id : Int := chosenCanonicalRawId body ex
            match fetch_events_raw db.events_raw canonical_raw_id with
            | none => (db, .err 400 "INVALID_CANONICAL_RAW_ID")
            | some canonical_raw =>
              if canonical_raw.tenant_id != ex.tenant_id then
                (db, .err 400 "CANONICAL_RAW_TENANT_MISMATCH")
              else
                let final_payload :=
                  json_merge_patch canonical_raw.payload_json (.obj body.override_patch)
                let final_hash := sha256_hex (canonical_json final_payload)
                let final_event_type := pyStrip (pyUpper (getEventTypeRaw final_payload))
                if final_event_type == "" then
                  (db, .err 400 "MISSING_EVENT_TYPE_IN_PAYLOAD")
                else if ¬ ALLOWED_EVENT_TYPES.contains final_event_type then
                  (db, .err 409 "REPLAY_VALIDATION_FAILED")
                else
                  -- Mark canonical choice by updating payload_hash_first to the
                  -- selected+patched payload hash.
                  let records' := updateRecord db.events_processed ex.tenant_id
                    ex.idempotency_key (fun q =>
                      { q with status := "processed", processed_at := some now,
                               payload_hash_first := final_hash,
                               payload_hash_last := final_hash,
                               last_error_code := none, last_exception_id := none })
                  let exceptions' := updateExc db.exceptions exception_id (fun e =>
                    { e with status := "resolved", resolved_at := some now,
                             resolution_action := some body.action,
                             resolution_notes := some body.resolution_notes,
                             resolution_actor := some body.actor,
                             override_patch := some (.obj body.override_patch),
                             replay_attempts := e.replay_attempts + 1,
                             last_replay_at := some now,
                             last_replay_status := some "processed" })
                  let entry : AuditEntry :=
                    { actor := body.actor, action := "resolve_and_replay",
                      object_type := "exception", object_id := exception_id,
                      notes := body.resolution_notes,
                      after_json := .obj
                        [("action", .str body.action),
                         ("idempotency_key", .str ex.idempotency_key),
                         ("canonical_raw_id", .num canonical_raw_id),
                         ("final_payload_hash", .str final_hash),
                         ("decision_time", .num now)],
                      at_ts := now }
                  ({ db with exceptions := exceptions', events_processed := records',
                             audit_log := db.audit_log ++ [entry],
                             clock := db.clock + 1 },
                   .replay exception_id canonical_raw_id final_hash)

/-! ## Reachability

A database state is reachable when it arises from the empty database by any
sequence of ingest and resolve transactions (the two state-changing
endpoints). -/

inductive Reachable : DB → Prop where
  | init : Reachable DB.empty
  | ingest (db : DB) (body : Option Json) :
      Reachable db → Reachable (ingest_event db body).1
  | resolve (db : DB) (exception_id : Nat) (body : ResolveIn) :
      Reachable db → Reachable (resolve_exception db exception_id body).1

/-- Number of open Exception rows for a `(tenant_id, idempotency_key)`. -/
def openExceptionCount (db : DB) (t k : String) : Nat :=
  (db.exceptions.filter (fun e =>
    e.status == "open" && e.tenant_id == t && e.idempotency_key == k)).length

/-! ## Concrete fixtures used by witnesses and counterexamples -/

/-- A well-formed submission: tenant `T`, event id `e1`, type `SALE`,
transaction `x`. -/
def payA : Json := .obj
  [("schema_version", .str "1"), ("tenant_id", .str "T"), ("store_id", .str "S"),
   ("source_system", .str "pos"), ("event_id", .str "e1"), ("event_type", .str "SALE"),
   ("occurred_at", .str "2024-01-01T00:00:00Z"), ("txn_id", .str "x")]

/-- Same key as `payA` but a different `txn_id`, hence a different payload
hash: a conflicting repeat. -/
def payB : Json := .obj
  [("schema_version", .str "1"), ("tenant_id", .str "T"), ("store_id", .str "S"),
   ("source_system", .str "pos"), ("event_id", .str "e1"), ("event_type", .str "SALE"),
   ("occurred_at", .str "2024-01-01T00:00:00Z"), ("txn_id", .str "y")]

/-- A third distinct payload for the same key. -/
def payC : Json := .obj
  [("schema_version", .str "1"), ("tenant_id", .str "T"), ("store_id", .str "S"),
   ("source_system", .str "pos"), ("event_id", .str "e1"), ("event_type", .str "SALE"),
   ("occurred_at", .str "2024-01-01T00:00:00Z"), ("txn_id", .str "z")]

/-- The validated envelope of `payB`. -/
def evB : EventIn :=
  { schema_version := "1", tenant_id := "T", store_id := "S", source_system := "pos",
    event_id := "e1", source_event_id := none, event_type := "SALE",
    occurred_at := "2024-01-01T00:00:00Z", txn_id := "y" }

/-- State after ingesting `payA` into the empty database. -/
def dbA : DB := (ingest_event DB.empty (some payA)).1

/-- The idempotency record of `(T, e1)` in `dbA`. -/
def recA : IdemRecord :=
  { tenant_id := "T", idempotency_key := "e1", first_seen_at := 0, last_seen_at := 0,
    status := "processed", first_raw_id := 1, last_raw_id := 1,
    payload_hash_first := sha256_hex (canonical_json payA),
    payload_hash_last := sha256_hex (canonical_json payA),
    processed_at := some 0, last_error_code := none, last_exception_id := none }

/-- One transaction of either endpoint. -/
inductive Step : DB → DB → Prop where
  | ingest (db : DB) (body : Option Json) : Step db (ingest_event db body).1
  | resolve (db : DB) (exception_id : Nat) (body : ResolveIn) :
      Step db (resolve_exception db exception_id body).1

/-- The fresh ledger row inserted by a first-sighting upsert (case
`inserted = true` of the `INSERT ... ON CONFLICT` statement). -/
def insertedRecord (ev : EventIn) (payload : Json) (db : DB) : IdemRecord :=
  { tenant_id := ev.tenant_id, idempotency_key := ev.event_id,
    first_seen_at := db.clock, last_seen_at := db.clock, status := "processed",
    first_raw_id := db.next_raw_id, last_raw_id := db.next_raw_id,
    payload_hash_first := sha256_hex (canonical_json payload),
    payload_hash_last := sha256_hex (canonical_json payload),
    processed_at := some db.clock, last_error_code := none,
    last_exception_id := none }

/-- The ledger rewrite of a repeat-sighting upsert (`DO UPDATE SET
last_seen_at, last_raw_id, payload_hash_last`). -/
def repeatUpdate (now raw : Nat) (h : String) (q : IdemRecord) : IdemRecord :=
  { q with last_seen_at := now, last_raw_id := raw, payload_hash_last := h }

/-- The ledger rewrite of `_create_exception_and_quarantine`. -/
def quarantineUpdate (reason : String) (exId : Nat) (q : IdemRecord) : IdemRecord :=
  { q with status := "quarantined", last_error_code := some reason,
           last_exception_id := some exId, processed_at := none }

/-- The ledger rewrite of `mark_resolved_no_replay`. -/
def ignoreUpdate (now exId : Nat) (q : IdemRecord) : IdemRecord :=
  { q with status := "ignored", processed_at := some now,
           last_error_code := some "IGNORED_BY_OPERATOR",
           last_exception_id := some exId }

/-- The ledger rewrite of a successful `override_and_replay`. -/
def replayUpdate (now : Nat) (h : String) (q : IdemRecord) : IdemRecord :=
  { q with status := "processed", processed_at := some now,
           payload_hash_first := h, payload_hash_last := h,
           last_error_code := none, last_exception_id := none }

/-- A first submission whose event type `FOO` is not allowed: it is
quarantined on sight, giving an open exception to replay. -/
def payFoo : Json := .obj
  [("schema_version", .str "1"), ("tenant_id", .str "T"), ("store_id", .str "S"),
   ("source_system", .str "pos"), ("event_id", .str "e9"), ("event_type", .str "FOO"),
   ("occurred_at", .str "2024-01-01T00:00:00Z"), ("txn_id", .str "x")]

/-- State with one open `UNKNOWN_EVENT_TYPE` exception (id 1, raw id 1). -/
def dbFoo : DB := (ingest_event DB.empty (some payFoo)).1

/-- A replay body that explicitly provides `canonical_raw_id = 0` and patches
the event type to an allowed one. -/
def bodyZero : ResolveIn :=
  { action := "override_and_replay", actor := "op",
    override_patch := [("event_type", .str "SALE")], canonical_raw_id := some 0 }

/-- The canonical raw id a replay response reports, when it is a replay. -/
def ResolveResponse.canonicalRawId : ResolveResponse → Option Int
  | .replay _ i _ => some i
  | _ => none

/-- The open exception row of `dbFoo`. -/
def exFoo : Exc :=
  { exception_id := 1, tenant_id := "T", raw_id := 1, idempotency_key := "e9",
    reason_code := "UNKNOWN_EVENT_TYPE",
    details_json := .obj
      [("event_type", .str "FOO"),
       ("allowed_event_types", .arr (sortedAllowedEventTypes.map .str)),
       ("message", .str "Event type is not supported by the ingestion simulator MVP.")],
    status := "open", created_at := 0, resolved_at := none, resolution_action := none,
    resolution_notes := none, resolution_actor := none, override_patch := none,
    replay_attempts := 0, last_replay_at := none, last_replay_status := none }

/-- The quarantined ledger row of `dbFoo`. -/
def recFoo : IdemRecord :=
  { tenant_id := "T", idempotency_key := "e9", first_seen_at := 0, last_seen_at := 0,
    status := "quarantined", first_raw_id := 1, last_raw_id := 1,
    payload_hash_first := sha256_hex (canonical_json payFoo),
    payload_hash_last := sha256_hex (canonical_json payFoo),
    processed_at := none, last_error_code := some "UNKNOWN_EVENT_TYPE",
    last_exception_id := some 1 }

/-- Same submission as `payA` except the `event_type` is spelled `"sale"`:
it normalizes to the allowed `SALE`, but the raw payload hash differs. -/
def payLower : Json := .obj
  [("schema_version", .str "1"), ("tenant_id", .str "T"), ("store_id", .str "S"),
   ("source_system", .str "pos"), ("event_id", .str "e1"), ("event_type", .str "sale"),
   ("occurred_at", .str "2024-01-01T00:00:00Z"), ("txn_id", .str "x")]

/-- State reached by ingesting `payA`, then the conflicting `payB`, then the
conflicting `payC`: the second and third submissions each open an
`IDEMPOTENCY_CONFLICT` exception for `(T, e1)`. -/
def dbTwo : DB := (ingest_event (ingest_event dbA (some payB)).1 (some payC)).1

/-- The Bronze row of `dbFoo` (raw id 1): the quarantined `FOO` submission. -/
def fetchedRawFoo : RawEvent :=
  { raw_id := 1, tenant_id := "T", store_id := "S", source_system := "pos",
    schema_version := "1", received_at := 0, occurred_at := "2024-01-01T00:00:00Z",
    event_id := "e9", source_event_id := none, event_type := "FOO", txn_id := "x",
    payload_hash := sha256_hex (canonical_json payFoo), payload_json := payFoo }

/-- The validated envelope of `payFoo` merge-patched with
`\x7b"event_type": "SALE"\x7d`. -/
def evFooPatched : EventIn :=
  { schema_version := "1", tenant_id := "T", store_id := "S", source_system := "pos",
    event_id := "e9", source_event_id := none, event_type := "SALE",
    occurred_at := "2024-01-01T00:00:00Z", txn_id := "x" }

/-! ## Theorems

The remainder of the file verifies the claims against the model above. -/

theorem charListLe_total (a b : List Char) : charListLe a b = true ∨ charListLe b a = true := by
  induction a generalizing b with
  | nil => left; rfl
  | cons x xs ih =>
    cases b with
    | nil => right; rfl
    | cons y ys =>
      by_cases hxy : x.toNat < y.toNat
      · left; simp [charListLe, hxy]
      · by_cases hyx : y.toNat < x.toNat
        · right; simp [charListLe, hyx]
        · rcases ih ys with h | h
          · left; simp [charListLe, hxy, hyx, h]
          · right; simp [charListLe, hxy, hyx, h]

theorem charListLe_trans {a b c : List Char} (h₁ : charListLe a b = true)
    (h₂ : charListLe b c = true) : charListLe a c = true := by
  induction a generalizing b c with
  | nil => rfl
  | cons x xs ih =>
    cases b with
    | nil => simp [charListLe] at h₁
    | cons y ys =>
      cases c with
      | nil => simp [charListLe] at h₂
      | cons z zs =>
        simp only [charListLe] at h₁ h₂ ⊢
        split_ifs at h₁ h₂ ⊢ <;> try omega
        all_goals first
          | rfl
          | (exact ih h₁ h₂)
          | omega

theorem charListLe_antisymm {a b : List Char} (h₁ : charListLe a b = true)
    (h₂ : charListLe b a = true) : a = b := by
  induction a generalizing b with
  | nil =>
    cases b with
    | nil => rfl
    | cons y ys => simp [charListLe] at h₂
  | cons x xs ih =>
    cases b with
    | nil => simp [charListLe] at h₁
    | cons y ys =>
      simp only [charListLe] at h₁ h₂
      split_ifs at h₁ h₂ <;> try omega
      have hn : x.toNat = y.toNat := by omega
      have hxy : x = y := Char.ext (UInt32.toNat.inj hn)
      subst hxy
      rw [ih h₁ h₂]

theorem strLe_antisymm {a b : String} (h₁ : strLe a b = true) (h₂ : strLe b a = true) :
    a = b := by
  cases a; cases b
  exact congrArg String.mk (charListLe_antisymm h₁ h₂)

instance : IsTotal (String × String) keyLE :=
  ⟨fun a b => charListLe_total a.1.data b.1.data⟩

instance : IsTrans (String × String) keyLE :=
  ⟨fun _ _ _ h h' => charListLe_trans h h'⟩

/-! ## Canonicalizer theorems (claim C5) -/

theorem canonPairs_eq_map (kvs : List (String × Json)) :
    canonPairs kvs = kvs.map (fun kv => (kv.1, canonical_json kv.2)) := by
  induction kvs with
  | nil => rfl
  | cons kv rest ih => cases kv; simp [canonPairs, ih]

instance : IsAntisymm (String × String) keyLT :=
  ⟨fun a b h₁ h₂ => absurd (strLe_antisymm h₁.1 h₂.1) h₁.2⟩

theorem sorted_keyLT {l : List (String × String)}
    (hs : List.Sorted keyLE l) (hn : (l.map Prod.fst).Nodup) :
    List.Sorted keyLT l := by
  have hnd : l.Pairwise (fun a b => a.1 ≠ b.1) := List.pairwise_map.mp hn
  exact (hs.and hnd)

/-- Two lists of (key, serialized-value) pairs that are permutations of each
other with duplicate-free keys sort identically. -/
theorem sortPairs_perm_eq {p₁ p₂ : List (String × String)}
    (hp : p₁.Perm p₂) (hn : (p₁.map Prod.fst).Nodup) :
    sortPairs p₁ = sortPairs p₂ := by
  have hperm : (sortPairs p₁).Perm (sortPairs p₂) :=
    ((List.perm_insertionSort keyLE p₁).trans hp).trans
      (List.perm_insertionSort keyLE p₂).symm
  have hn₁ : ((sortPairs p₁).map Prod.fst).Nodup :=
    (((List.perm_insertionSort keyLE p₁).map Prod.fst).nodup_iff).mpr hn
  have hn₂ : ((sortPairs p₂).map Prod.fst).Nodup :=
    ((hperm.map Prod.fst).nodup_iff).mp hn₁
  exact List.eq_of_perm_of_sorted hperm
    (sorted_keyLT (List.sorted_insertionSort keyLE p₁) hn₁)
    (sorted_keyLT (List.sorted_insertionSort keyLE p₂) hn₂)

/-- C5: `contentHash(value)` is the lowercase hex SHA-256 of the canonical
serialization of `value` (the composite `sha256_hex (canonical_json v)`),
and it is insensitive to object-key order: two JSON objects whose key-value
lists are permutations of each other (with duplicate-free keys, as Python
dicts guarantee) hash identically. -/
theorem claim_C5 :
    (∀ v : Json, contentHash v = sha256_hex (canonical_json v)) ∧
    (∀ kvs₁ kvs₂ : List (String × Json), kvs₁.Perm kvs₂ →
      (kvs₁.map Prod.fst).Nodup →
      contentHash (.obj kvs₁) = contentHash (.obj kvs₂)) := by
  refine ⟨fun _ => rfl, fun kvs₁ kvs₂ hp hn => ?_⟩
  have hperm : (canonPairs kvs₁).Perm (canonPairs kvs₂) := by
    rw [canonPairs_eq_map, canonPairs_eq_map]
    exact hp.map _
  have hfst : (canonPairs kvs₁).map Prod.fst = kvs₁.map Prod.fst := by
    rw [canonPairs_eq_map, List.map_map]
    rfl
  have hn' : ((canonPairs kvs₁).map Prod.fst).Nodup := by rw [hfst]; exact hn
  have hsort : sortPairs (canonPairs kvs₁) = sortPairs (canonPairs kvs₂) :=
    sortPairs_perm_eq hperm hn'
  show sha256_hex (canonical_json (.obj kvs₁)) = sha256_hex (canonical_json (.obj kvs₂))
  simp only [canonical_json, renderObj, hsort]

/-- Witness for C5 at the spec's own example: `contentHash({a:1,b:2}) =
contentHash({b:2,a:1})`. -/
theorem claim_C5_witness :
    contentHash (.obj [("a", .num 1), ("b", .num 2)]) =
      contentHash (.obj [("b", .num 2), ("a", .num 1)]) :=
  claim_C5.2 [("a", Json.num 1), ("b", Json.num 2)] [("b", Json.num 2), ("a", Json.num 1)]
    (List.Perm.swap ("b", Json.num 2) ("a", Json.num 1) []) (by decide)

/-! ## Patch-engine theorems (claim C6) -/

/-- C6 counterexample: `mergePatch(5, \x7b\x7d)` is the empty object, not `5` —
when the target is not an object the code replaces it with `\x7b\x7d` even for the
empty patch, so `mergePatch(v, \x7b\x7d) = v` fails for non-object `v`. -/
theorem claim_C6_counterexample :
    json_merge_patch (.num 5) (.obj []) ≠ .num 5 := by
  intro h
  simp only [json_merge_patch, mergeLoop] at h
  exact Json.noConfusion h

/-- C6 as amended: `mergePatch(v, \x7b\x7d) = v` holds for every JSON *object* `v`;
for a non-object `v` the empty-patch merge returns the empty object (the
target is treated as empty per RFC 7396). -/
theorem claim_C6 (v : Json) :
    json_merge_patch v (.obj []) =
      (match v with
       | .obj kvs => .obj kvs
       | _ => .obj []) := by
  cases v <;> rfl

/-! ## Ledger lookup/update lemmas -/

/-- Looking a key up after a keyed `UPDATE` sees the updated row, provided the
update does not touch the key columns (none of the code's updates do). -/
theorem findRecord_updateRecord (l : List IdemRecord) (t k : String)
    (f : IdemRecord → IdemRecord)
    (hpres : ∀ r, (f r).tenant_id = r.tenant_id ∧ (f r).idempotency_key = r.idempotency_key) :
    findRecord (updateRecord l t k f) t k = (findRecord l t k).map f := by
  induction l with
  | nil => rfl
  | cons a rest ih =>
    simp only [updateRecord, List.map_cons]
    by_cases ha : (a.tenant_id == t && a.idempotency_key == k) = true
    · rw [if_pos ha]
      have hfa : ((f a).tenant_id == t && (f a).idempotency_key == k) = true := by
        rw [(hpres a).1, (hpres a).2]; exact ha
      unfold findRecord
      simp only [List.find?, hfa, ha]
      rfl
    · have ha' : (a.tenant_id == t && a.idempotency_key == k) = false := by
        simpa using ha
      rw [if_neg ha]
      unfold findRecord
      simp only [List.find?, ha']
      exact ih

/-- A keyed `UPDATE` leaves rows with other keys alone: looking up a different
key is unaffected. -/
theorem findRecord_updateRecord_ne (l : List IdemRecord) (t k t' k' : String)
    (f : IdemRecord → IdemRecord)
    (hpres : ∀ r, (f r).tenant_id = r.tenant_id ∧ (f r).idempotency_key = r.idempotency_key)
    (hne : ¬(t = t' ∧ k = k')) :
    findRecord (updateRecord l t' k' f) t k = findRecord l t k := by
  induction l with
  | nil => rfl
  | cons a rest ih =>
    simp only [updateRecord, List.map_cons]
    by_cases hsel : (a.tenant_id == t' && a.idempotency_key == k') = true
    · rw [if_pos hsel]
      have hkey : ((f a).tenant_id == t && (f a).idempotency_key == k) =
          (a.tenant_id == t && a.idempotency_key == k) := by
        rw [(hpres a).1, (hpres a).2]
      by_cases hmat : (a.tenant_id == t && a.idempotency_key == k) = true
      · exfalso
        simp only [Bool.and_eq_true, beq_iff_eq] at hsel hmat
        exact hne ⟨hmat.1.symm.trans hsel.1, hmat.2.symm.trans hsel.2⟩
      · have hmat' : (a.tenant_id == t && a.idempotency_key == k) = false := by
          simpa using hmat
        have hfa : ((f a).tenant_id == t && (f a).idempotency_key == k) = false :=
          hkey.trans hmat'
        unfold findRecord
        simp only [List.find?, hfa, hmat']
        exact ih
    · rw [if_neg hsel]
      unfold findRecord
      by_cases hmat : (a.tenant_id == t && a.idempotency_key == k) = true
      · simp only [List.find?, hmat]
      · have hmat' : (a.tenant_id == t && a.idempotency_key == k) = false := by
          simpa using hmat
        simp only [List.find?, hmat']
        exact ih

/-- Looking up a record appended for a different key falls through to the
old table. -/
theorem findRecord_append (l : List IdemRecord) (t k : String) (r : IdemRecord) :
    findRecord (l ++ [r]) t k =
      ((findRecord l t k).or (if r.tenant_id == t && r.idempotency_key == k
        then some r else none)) := by
  induction l with
  | nil => by_cases h : (r.tenant_id == t && r.idempotency_key == k) = true <;>
      simp [findRecord, List.find?, h]
  | cons a rest ih =>
    by_cases h : (a.tenant_id == t && a.idempotency_key == k) = true <;>
      simp only [findRecord, List.cons_append, List.find?, h] at ih ⊢ <;>
      simp [h, ih]

/-! ## Bronze append vs. response status (claim C4) -/

/-- C4: a RawEvent (Bronze) row is written iff the ingest response is not an
error status: a rejected submission (`INVALID_JSON`, `VALIDATION_ERROR`,
status 400) leaves the whole state untouched, while every successful outcome
(200, 201 or 202 — quarantined ones included) appends exactly one row to
`events_raw`. -/
theorem claim_C4 (db : DB) (body : Option Json) :
    ((ingest_event db body).2.statusCode = 400 ∧ (ingest_event db body).1 = db) ∨
    (((ingest_event db body).2.statusCode = 201 ∨ (ingest_event db body).2.statusCode = 200 ∨
        (ingest_event db body).2.statusCode = 202) ∧
      ∃ row, (ingest_event db body).1.events_raw = db.events_raw ++ [row]) := by
  simp only [ingest_event]
  split
  · exact Or.inl ⟨rfl, rfl⟩
  · split
    · exact Or.inl ⟨rfl, rfl⟩
    · split
      · split
        · exact Or.inr ⟨Or.inl rfl, _, rfl⟩
        · exact Or.inr ⟨Or.inr (Or.inr rfl), _, rfl⟩
      · split
        · split
          · exact Or.inr ⟨Or.inr (Or.inr rfl), _, rfl⟩
          · exact Or.inr ⟨Or.inr (Or.inl rfl), _, rfl⟩
        · exact Or.inr ⟨Or.inr (Or.inr rfl), _, rfl⟩

/-! ## Ingest classification for repeat sightings (claim C3) -/

/-- C3: classification of an ingest whose `(tenant_id, idempotency_key)`
already has an IdempotencyRecord (`inserted = false`).  With
`h` the submitted payload's content hash: (case C) `h = payload_hash_first`
and prior status not quarantined replies 200/duplicate and opens no
Exception; (case D) `h = payload_hash_first` with prior status quarantined
replies 202/quarantined, reason `ALREADY_QUARANTINED`, echoing the record's
`last_exception_id`, with no new Exception row; (case E)
`h ≠ payload_hash_first` inserts one open `IDEMPOTENCY_CONFLICT` Exception
for the key and sets the record's status to `quarantined`. -/
theorem claim_C3 (db : DB) (payload : Json) (ev : EventIn) (r : IdemRecord)
    (hv : validateEvent payload = some ev)
    (hf : findRecord db.events_processed ev.tenant_id ev.event_id = some r) :
    (r.payload_hash_first = sha256_hex (canonical_json payload) →
      r.status ≠ "quarantined" →
      (ingest_event db (some payload)).2 = .ok
        { status_code := 200, tenant_id := ev.tenant_id, idempotency_key := ev.event_id,
          raw_id := db.next_raw_id, result := "duplicate", exception_id := none,
          reason_code := none } ∧
      (ingest_event db (some payload)).1.exceptions = db.exceptions) ∧
    (r.payload_hash_first = sha256_hex (canonical_json payload) →
      r.status = "quarantined" →
      (ingest_event db (some payload)).2 = .ok
        { status_code := 202, tenant_id := ev.tenant_id, idempotency_key := ev.event_id,
          raw_id := db.next_raw_id, result := "quarantined",
          exception_id := r.last_exception_id,
          reason_code := some "ALREADY_QUARANTINED" } ∧
      (ingest_event db (some payload)).1.exceptions = db.exceptions) ∧
    (r.payload_hash_first ≠ sha256_hex (canonical_json payload) →
      (ingest_event db (some payload)).2 = .ok
        { status_code := 202, tenant_id := ev.tenant_id, idempotency_key := ev.event_id,
          raw_id := db.next_raw_id, result := "quarantined",
          exception_id := some db.next_exception_id,
          reason_code := some "IDEMPOTENCY_CONFLICT" } ∧
      (∃ exn : Exc, (ingest_event db (some payload)).1.exceptions = db.exceptions ++ [exn] ∧
        exn.reason_code = "IDEMPOTENCY_CONFLICT" ∧ exn.status = "open" ∧
        exn.tenant_id = ev.tenant_id ∧ exn.idempotency_key = ev.event_id ∧
        exn.exception_id = db.next_exception_id) ∧
      ∃ r' : IdemRecord,
        findRecord (ingest_event db (some payload)).1.events_processed
          ev.tenant_id ev.event_id = some r' ∧
        r'.status = "quarantined" ∧
        r'.last_error_code = some "IDEMPOTENCY_CONFLICT" ∧
        r'.last_exception_id = some db.next_exception_id) := by
  refine ⟨fun hh hs => ?_, fun hh hs => ?_, fun hh => ?_⟩ <;>
    simp only [ingest_event, hv, hf]
  · have hb : (r.payload_hash_first == sha256_hex (canonical_json payload)) = true :=
      beq_iff_eq.mpr hh
    have hsb : (r.status == "quarantined") = false := by
      simpa using hs
    simp [hb, hsb]
  · have hb : (r.payload_hash_first == sha256_hex (canonical_json payload)) = true :=
      beq_iff_eq.mpr hh
    have hsb : (r.status == "quarantined") = true := beq_iff_eq.mpr hs
    simp [hb, hsb]
  · have hb : (r.payload_hash_first == sha256_hex (canonical_json payload)) = false := by
      simpa using hh
    simp only [hb, Bool.false_eq_true, if_false, create_exception_and_quarantine]
    refine ⟨by trivial, ⟨_, rfl, rfl, rfl, rfl, rfl, rfl⟩, ?_⟩
    rw [findRecord_updateRecord, findRecord_updateRecord, hf]
    · exact ⟨_, rfl, rfl, rfl, rfl⟩
    · exact fun q => ⟨rfl, rfl⟩
    · exact fun q => ⟨rfl, rfl⟩

/-- Witness for C3 (case E, the conflicting repeat): after `payA` is
ingested, ingesting `payB` under the same key replies 202 quarantined with
reason `IDEMPOTENCY_CONFLICT`. -/
theorem claim_C3_witness :
    (ingest_event dbA (some payB)).2 = .ok
      { status_code := 202, tenant_id := "T", idempotency_key := "e1", raw_id := 2,
        result := "quarantined", exception_id := some 1,
        reason_code := some "IDEMPOTENCY_CONFLICT" } :=
  ((claim_C3 dbA payB evB recA rfl rfl).2.2 (by decide)).1

/-! ## Immutability of `first_raw_id` (claim C7) -/

/-- An identity update leaves the table unchanged. -/
theorem updateRecord_id (l : List IdemRecord) (t k : String) :
    updateRecord l t k (fun q => q) = l := by
  simp [updateRecord]

/-- Two keyed updates on the same key fuse (the first must not move the key,
which none of the code's updates do). -/
theorem updateRecord_comp (l : List IdemRecord) (t k : String)
    (f₁ f₂ : IdemRecord → IdemRecord)
    (hpres : ∀ r, (f₁ r).tenant_id = r.tenant_id ∧ (f₁ r).idempotency_key = r.idempotency_key) :
    updateRecord (updateRecord l t k f₁) t k f₂ = updateRecord l t k (fun q => f₂ (f₁ q)) := by
  induction l with
  | nil => rfl
  | cons a rest ih =>
    simp only [updateRecord, List.map_cons] at ih ⊢
    by_cases ha : (a.tenant_id == t && a.idempotency_key == k) = true
    · have hfa : ((f₁ a).tenant_id == t && (f₁ a).idempotency_key == k) = true := by
        rw [(hpres a).1, (hpres a).2]; exact ha
      rw [if_pos ha, if_pos ha, if_pos hfa, ih]
    · rw [if_neg ha, if_neg ha, if_neg ha, ih]

/-- A row found in a table is still the row found after appending. -/
theorem findRecord_append_of_found (l L : List IdemRecord) (t k : String)
    (r : IdemRecord) (h : findRecord l t k = some r) :
    findRecord (l ++ L) t k = some r := by
  induction l with
  | nil => simp [findRecord] at h
  | cons a rest ih =>
    by_cases ha : (a.tenant_id == t && a.idempotency_key == k) = true
    · unfold findRecord at h ⊢
      simp only [List.find?, ha, List.cons_append] at h ⊢
      exact h
    · have ha' : (a.tenant_id == t && a.idempotency_key == k) = false := by simpa using ha
      unfold findRecord at h ⊢
      simp only [List.find?, ha', List.cons_append] at h ⊢
      exact ih h

/-- Shape of the idempotency ledger across one transaction: some rows may be
appended, and the rows of one key may be rewritten by a function that touches
neither the key columns nor `first_raw_id`.  Every branch of both endpoints
fits this shape. -/
theorem step_records_shape {db db' : DB} (h : Step db db') :
    ∃ (L : List IdemRecord) (t₀ k₀ : String) (f : IdemRecord → IdemRecord),
      (∀ q, (f q).tenant_id = q.tenant_id ∧ (f q).idempotency_key = q.idempotency_key ∧
        (f q).first_raw_id = q.first_raw_id) ∧
      db'.events_processed = updateRecord (db.events_processed ++ L) t₀ k₀ f := by
  have idshape : ∀ dbx : DB, dbx.events_processed =
      updateRecord (dbx.events_processed ++ []) "" "" (fun q => q) := by
    intro dbx; rw [List.append_nil, updateRecord_id]
  cases h with
  | ingest body =>
    cases body with
    | none => exact ⟨[], "", "", fun q => q, fun q => ⟨rfl, rfl, rfl⟩, idshape db⟩
    | some payload =>
      simp only [ingest_event]
      cases hv : validateEvent payload with
      | none => exact ⟨[], "", "", fun q => q, fun q => ⟨rfl, rfl, rfl⟩, idshape db⟩
      | some ev =>
        simp only
        cases hx : findRecord db.events_processed ev.tenant_id ev.event_id with
        | none =>
          simp only [hx]
          refine ⟨[insertedRecord ev payload db], ev.tenant_id, ev.event_id, ?_⟩
          split
          · exact ⟨fun q => q, fun q => ⟨rfl, rfl, rfl⟩, by rw [updateRecord_id]; rfl⟩
          · refine ⟨quarantineUpdate "UNKNOWN_EVENT_TYPE" db.next_exception_id,
              fun q => ⟨rfl, rfl, rfl⟩, ?_⟩
            simp only [create_exception_and_quarantine]
            rfl
        | some r =>
          simp only [hx]
          split
          · split
            · refine ⟨[], ev.tenant_id, ev.event_id,
                repeatUpdate db.clock db.next_raw_id (sha256_hex (canonical_json payload)),
                fun q => ⟨rfl, rfl, rfl⟩, ?_⟩
              rw [List.append_nil]
              rfl
            · refine ⟨[], ev.tenant_id, ev.event_id,
                repeatUpdate db.clock db.next_raw_id (sha256_hex (canonical_json payload)),
                fun q => ⟨rfl, rfl, rfl⟩, ?_⟩
              rw [List.append_nil]
              rfl
          · refine ⟨[], ev.tenant_id, ev.event_id,
              fun q => quarantineUpdate "IDEMPOTENCY_CONFLICT" db.next_exception_id
                (repeatUpdate db.clock db.next_raw_id (sha256_hex (canonical_json payload)) q),
              fun q => ⟨rfl, rfl, rfl⟩, ?_⟩
            rw [List.append_nil]
            simp only [create_exception_and_quarantine]
            rw [updateRecord_comp]
            · rfl
            · exact fun q => ⟨rfl, rfl⟩
  | resolve exception_id body =>
    simp only [resolve_exception]
    split
    · exact ⟨[], "", "", fun q => q, fun q => ⟨rfl, rfl, rfl⟩, idshape db⟩
    · split
      · exact ⟨[], "", "", fun q => q, fun q => ⟨rfl, rfl, rfl⟩, idshape db⟩
      · rename_i ex _
        split
        · exact ⟨[], "", "", fun q => q, fun q => ⟨rfl, rfl, rfl⟩, idshape db⟩
        · split
          · exact ⟨[], "", "", fun q => q, fun q => ⟨rfl, rfl, rfl⟩, idshape db⟩
          · split
            · refine ⟨[], ex.tenant_id, ex.idempotency_key,
                ignoreUpdate db.clock exception_id,
                fun q => ⟨rfl, rfl, rfl⟩, ?_⟩
              rw [List.append_nil]
              rfl
            · split
              · exact ⟨[], "", "", fun q => q, fun q => ⟨rfl, rfl, rfl⟩, idshape db⟩
              · rename_i canonical_raw _
                split
                · exact ⟨[], "", "", fun q => q, fun q => ⟨rfl, rfl, rfl⟩, idshape db⟩
                · split
                  · exact ⟨[], "", "", fun q => q, fun q => ⟨rfl, rfl, rfl⟩, idshape db⟩
                  · split
                    · exact ⟨[], "", "", fun q => q, fun q => ⟨rfl, rfl, rfl⟩, idshape db⟩
                    · refine ⟨[], ex.tenant_id, ex.idempotency_key,
                        replayUpdate db.clock (sha256_hex (canonical_json
                          (json_merge_patch canonical_raw.payload_json
                            (.obj body.override_patch)))),
                        fun q => ⟨rfl, rfl, rfl⟩, ?_⟩
                      rw [List.append_nil]
                      rfl

/-! ## Resolve precondition order (claim C8) -/

/-- C8 counterexample: with no Exception row at all (so exception id 1 does
not exist), a resolve request whose body carries an action outside the
allowed set is answered 400 `INVALID_ACTION`, not 404 `NOT_FOUND` — the
action gate runs before the existence check (and outside the transaction),
contradicting the claim that a nonexistent id yields 404 regardless of the
action value. -/
theorem claim_C8_counterexample :
    findExc DB.empty.exceptions 1 = none ∧
    (resolve_exception DB.empty 1 { action := "bogus", actor := "op" }).2 =
      .err 400 "INVALID_ACTION" ∧
    (resolve_exception DB.empty 1 { action := "bogus", actor := "op" }).2 ≠
      .err 404 "NOT_FOUND" :=
  ⟨rfl, rfl, by decide⟩

/-- C8 as amended: the action-allowed gate is checked first, before the
transaction; only when the body's action is in the allowed set does a resolve
for a nonexistent exception id return `NOT_FOUND` (404).  An invalid action
returns `INVALID_ACTION` (400) whether or not the exception exists; both
error paths leave the state unchanged. -/
theorem claim_C8 (db : DB) (exId : Nat) (body : ResolveIn) :
    (body.action ∈ ALLOWED_RESOLUTION_ACTIONS →
      findExc db.exceptions exId = none →
      (resolve_exception db exId body).2 = .err 404 "NOT_FOUND" ∧
      (resolve_exception db exId body).1 = db) ∧
    (body.action ∉ ALLOWED_RESOLUTION_ACTIONS →
      (resolve_exception db exId body).2 = .err 400 "INVALID_ACTION" ∧
      (resolve_exception db exId body).1 = db) := by
  constructor
  · intro hact hfind
    simp [resolve_exception, hact, hfind]
  · intro hact
    simp [resolve_exception, hact]

/-- Witness for C8: a valid action on the empty database (no exceptions)
gets 404. -/
theorem claim_C8_witness :
    (resolve_exception DB.empty 7 { action := "mark_resolved_no_replay", actor := "op" }).2 =
      .err 404 "NOT_FOUND" :=
  ((claim_C8 DB.empty 7 { action := "mark_resolved_no_replay", actor := "op" }).1
    (by decide) rfl).1

/-! ## Canonical raw id selection on replay (claim C9) -/

/-- C9 counterexample: the body provides `canonical_raw_id = 0`; no RawEvent
with id 0 exists, so by the claim the transition should fail with
`INVALID_CANONICAL_RAW_ID` (400) — but `0` is falsy in Python, the code falls
back to the Exception's own raw id 1, and the replay succeeds (200) reporting
canonical raw id 1. -/
theorem claim_C9_counterexample :
    bodyZero.canonical_raw_id = some 0 ∧
    fetch_events_raw dbFoo.events_raw 0 = none ∧
    (resolve_exception dbFoo 1 bodyZero).2.statusCode = 200 ∧
    ResolveResponse.canonicalRawId (resolve_exception dbFoo 1 bodyZero).2 = some 1 :=
  ⟨rfl, rfl, by decide, by decide⟩

/-- C9 as amended: for an `override_and_replay` resolution that passes the
existence/open/record preconditions, the canonical raw id used is the body's
`canonical_raw_id` when it is provided **and nonzero** (a provided `0` is
falsy in Python and falls back like an absent one), and the Exception's own
`raw_id` otherwise; if no RawEvent has the chosen id, the transition fails
with `INVALID_CANONICAL_RAW_ID` (400) and changes nothing, and every
successful replay reports exactly the chosen id. -/
theorem claim_C9 (db : DB) (exId : Nat) (body : ResolveIn) (ex : Exc)
    (hact : body.action = "override_and_replay")
    (hex : findExc db.exceptions exId = some ex)
    (hopen : ex.status = "open")
    (hrec : ∃ ep, findRecord db.events_processed ex.tenant_id ex.idempotency_key = some ep) :
    (fetch_events_raw db.events_raw (chosenCanonicalRawId body ex) = none →
      (resolve_exception db exId body).2 = .err 400 "INVALID_CANONICAL_RAW_ID" ∧
      (resolve_exception db exId body).1 = db) ∧
    (∀ e i fh, (resolve_exception db exId body).2 = .replay e i fh →
      i = chosenCanonicalRawId body ex) := by
  obtain ⟨ep, hep⟩ := hrec
  constructor
  · intro hfetch
    simp [resolve_exception, hact, hex, hopen, hep, ALLOWED_RESOLUTION_ACTIONS, hfetch]
  · intro e i fh heq
    simp [resolve_exception, hact, hex, hopen, hep, ALLOWED_RESOLUTION_ACTIONS] at heq
    revert heq
    repeat' split
    all_goals intro heq
    all_goals try cases heq
    all_goals simp_all [chosenCanonicalRawId]

/-- Witness for C9: on `dbFoo`, a replay body naming the nonexistent raw id 5
fails with `INVALID_CANONICAL_RAW_ID`. -/
theorem claim_C9_witness :
    (resolve_exception dbFoo 1
      { action := "override_and_replay", actor := "op",
        override_patch := [("event_type", Json.str "SALE")],
        canonical_raw_id := some 5 }).2 = .err 400 "INVALID_CANONICAL_RAW_ID" :=
  ((claim_C9 dbFoo 1
    { action := "override_and_replay", actor := "op",
      override_patch := [("event_type", Json.str "SALE")],
      canonical_raw_id := some 5 } exFoo rfl rfl rfl ⟨recFoo, rfl⟩).1 rfl).1

/-- C7: `first_raw_id` is immutable.  (1) The record created by a
first-sighting ingest carries `first_raw_id` equal to the id of the Bronze
row just appended; (2) across any later transaction — repeat-submission
upsert, quarantining, `mark_resolved_no_replay`, `override_and_replay`, or
any failing variant — a key's record keeps its `first_raw_id`. -/
theorem claim_C7 :
    (∀ (db : DB) (payload : Json) (ev : EventIn),
      validateEvent payload = some ev →
      findRecord db.events_processed ev.tenant_id ev.event_id = none →
      ∃ r, findRecord (ingest_event db (some payload)).1.events_processed
          ev.tenant_id ev.event_id = some r ∧
        r.first_raw_id = db.next_raw_id) ∧
    (∀ (db db' : DB), Step db db' → ∀ (t k : String) (r r' : IdemRecord),
      findRecord db.events_processed t k = some r →
      findRecord db'.events_processed t k = some r' →
      r'.first_raw_id = r.first_raw_id) := by
  constructor
  · intro db payload ev hv hx
    simp only [ingest_event, hv, hx]
    split
    · rw [findRecord_append]
      rw [hx]
      simp only [Option.none_or, beq_self_eq_true, Bool.and_self, if_pos]
      exact ⟨_, rfl, rfl⟩
    · simp only [create_exception_and_quarantine]
      rw [findRecord_updateRecord]
      · rw [findRecord_append, hx]
        simp only [Option.none_or, beq_self_eq_true, Bool.and_self, if_pos]
        exact ⟨_, rfl, rfl⟩
      · exact fun q => ⟨rfl, rfl⟩
  · intro db db' hstep t k r r' hf hf'
    obtain ⟨L, t₀, k₀, f, hfprop, hshape⟩ := step_records_shape hstep
    rw [hshape] at hf'
    have hbase : findRecord (db.events_processed ++ L) t k = some r :=
      findRecord_append_of_found _ _ _ _ _ hf
    by_cases hkey : t = t₀ ∧ k = k₀
    · obtain ⟨ht, hk⟩ := hkey
      subst ht; subst hk
      rw [findRecord_updateRecord _ _ _ _ (fun q => ⟨(hfprop q).1, (hfprop q).2.1⟩),
        hbase] at hf'
      cases hf'
      exact (hfprop r).2.2
    · rw [findRecord_updateRecord_ne _ _ _ _ _ _
          (fun q => ⟨(hfprop q).1, (hfprop q).2.1⟩) hkey, hbase] at hf'
      cases hf'
      rfl

/-- Witness for C7: the record of `(T, e1)` keeps `first_raw_id = 1` across
the conflicting second ingest (which quarantines the key). -/
theorem claim_C7_witness :
    (∃ r, findRecord (ingest_event DB.empty (some payA)).1.events_processed
        "T" "e1" = some r ∧ r.first_raw_id = 1) ∧
    ((ingest_event dbA (some payB)).1.events_processed.map IdemRecord.first_raw_id = [1]) := by
  constructor
  · exact claim_C7.1 DB.empty payA
      { schema_version := "1", tenant_id := "T", store_id := "S", source_system := "pos",
        event_id := "e1", source_event_id := none, event_type := "SALE",
        occurred_at := "2024-01-01T00:00:00Z", txn_id := "x" } rfl rfl
  · have h := claim_C7.2 dbA (ingest_event dbA (some payB)).1
      (Step.ingest dbA (some payB)) "T" "e1" recA
    have hf : findRecord dbA.events_processed "T" "e1" = some recA := rfl
    have hr' : ∃ r', findRecord (ingest_event dbA (some payB)).1.events_processed
        "T" "e1" = some r' := ⟨_, rfl⟩
    obtain ⟨r', hfind⟩ := hr'
    have := h r' hf hfind
    decide

/-! ## Hash-before-normalization (claim C10) -/

/-- C10: duplicate detection hashes the payload exactly as submitted, before
`event_type` normalization.  If a key's first sighting (allowed type) is
followed by a submission under the same `(tenant_id, event_id)` whose
`event_type` normalizes (trim + uppercase) to the same allowed value but
whose raw payload hashes differently (e.g. the type differs only in letter
case), the second submission is classified `IDEMPOTENCY_CONFLICT` — 202
quarantined, not 200 duplicate. -/
theorem claim_C10 (db : DB) (p₁ p₂ : Json) (ev₁ ev₂ : EventIn)
    (hv₁ : validateEvent p₁ = some ev₁)
    (hv₂ : validateEvent p₂ = some ev₂)
    (htenant : ev₂.tenant_id = ev₁.tenant_id)
    (hkey : ev₂.event_id = ev₁.event_id)
    (habsent : findRecord db.events_processed ev₁.tenant_id ev₁.event_id = none)
    (htype : pyStrip (pyUpper ev₂.event_type) = pyStrip (pyUpper ev₁.event_type))
    (hallowed : ALLOWED_EVENT_TYPES.contains (pyStrip (pyUpper ev₁.event_type)) = true)
    (hhash : sha256_hex (canonical_json p₁) ≠ sha256_hex (canonical_json p₂)) :
    (ingest_event db (some p₁)).2 = .ok
      { status_code := 201, tenant_id := ev₁.tenant_id, idempotency_key := ev₁.event_id,
        raw_id := db.next_raw_id, result := "processed", exception_id := none,
        reason_code := none } ∧
    (ingest_event (ingest_event db (some p₁)).1 (some p₂)).2 = .ok
      { status_code := 202, tenant_id := ev₂.tenant_id, idempotency_key := ev₂.event_id,
        raw_id := db.next_raw_id + 1, result := "quarantined",
        exception_id := some db.next_exception_id,
        reason_code := some "IDEMPOTENCY_CONFLICT" } := by
  have hstep₁ : (ingest_event db (some p₁)).1.events_processed =
      db.events_processed ++ [insertedRecord ev₁ p₁ db] ∧
      (ingest_event db (some p₁)).2 = .ok
        { status_code := 201, tenant_id := ev₁.tenant_id, idempotency_key := ev₁.event_id,
          raw_id := db.next_raw_id, result := "processed", exception_id := none,
          reason_code := none } := by
    simp only [ingest_event, hv₁, habsent, hallowed, if_pos]
    exact ⟨by trivial, by trivial⟩
  refine ⟨hstep₁.2, ?_⟩
  have hfind' : findRecord (db.events_processed ++ [insertedRecord ev₁ p₁ db])
      ev₂.tenant_id ev₂.event_id = some (insertedRecord ev₁ p₁ db) := by
    rw [htenant, hkey, findRecord_append, habsent]
    simp [insertedRecord]
  have hb : ((insertedRecord ev₁ p₁ db).payload_hash_first ==
      sha256_hex (canonical_json p₂)) = false := by
    simpa [insertedRecord] using hhash
  simp only [insertedRecord] at hfind' hb
  simp only [ingest_event, hv₁, habsent, hallowed, if_pos, hv₂, hfind', hb,
    Bool.false_eq_true, if_false, create_exception_and_quarantine]

/-- Witness for C10: after `payA` (`event_type = "SALE"`), submitting
`payLower` (identical except `event_type = "sale"`) is quarantined as an
idempotency conflict, not reported as a duplicate. -/
theorem claim_C10_witness :
    (ingest_event (ingest_event DB.empty (some payA)).1 (some payLower)).2 = .ok
      { status_code := 202, tenant_id := "T", idempotency_key := "e1", raw_id := 2,
        result := "quarantined", exception_id := some 1,
        reason_code := some "IDEMPOTENCY_CONFLICT" } :=
  (claim_C10 DB.empty payA payLower
    { schema_version := "1", tenant_id := "T", store_id := "S", source_system := "pos",
      event_id := "e1", source_event_id := none, event_type := "SALE",
      occurred_at := "2024-01-01T00:00:00Z", txn_id := "x" }
    { schema_version := "1", tenant_id := "T", store_id := "S", source_system := "pos",
      event_id := "e1", source_event_id := none, event_type := "sale",
      occurred_at := "2024-01-01T00:00:00Z", txn_id := "x" }
    rfl rfl rfl rfl rfl (by decide) (by decide) (by decide)).2

/-! ## Open exceptions per key (claim C1) -/

/-- C1 counterexample: a reachable state with **two** open Exceptions for the
same `(tenant_id, idempotency_key)`.  A conflicting submission against an
already-quarantined key opens a fresh Exception even though one is already
open, so the at-most-one-open invariant fails. -/
theorem claim_C1_counterexample :
    Reachable dbTwo ∧ openExceptionCount dbTwo "T" "e1" = 2 := by
  constructor
  · exact Reachable.ingest _ (some payC)
      (Reachable.ingest _ (some payB)
        (Reachable.ingest _ (some payA) Reachable.init))
  · decide

/-- C1 as amended: an ingest (of a validated payload) opens a new Exception
exactly when it is a first sighting with a disallowed event type, or a repeat
sighting whose payload hash differs from `payload_hash_first` — regardless of
whether an Exception for the key is already open.  A conflicting repeat
against an already-quarantined key therefore opens an additional Exception,
and a key can accumulate several open Exceptions until they are resolved; a
same-hash duplicate never opens one. -/
theorem claim_C1 (db : DB) (payload : Json) (ev : EventIn)
    (hv : validateEvent payload = some ev) :
    (ingest_event db (some payload)).1.exceptions.length = db.exceptions.length + 1 ↔
      ((findRecord db.events_processed ev.tenant_id ev.event_id = none ∧
          pyStrip (pyUpper ev.event_type) ∉ ALLOWED_EVENT_TYPES) ∨
        (∃ r, findRecord db.events_processed ev.tenant_id ev.event_id = some r ∧
          r.payload_hash_first ≠ sha256_hex (canonical_json payload))) := by
  simp only [ingest_event, hv]
  cases hx : findRecord db.events_processed ev.tenant_id ev.event_id with
  | none =>
    by_cases hall : pyStrip (pyUpper ev.event_type) ∈ ALLOWED_EVENT_TYPES
    · simp [hall, hx]
    · simp [create_exception_and_quarantine, hall, hx]
  | some r =>
    by_cases hhash : (r.payload_hash_first == sha256_hex (canonical_json payload)) = true
    · simp only [beq_iff_eq] at hhash
      by_cases hq : (r.status == "quarantined") = true
      · simp [hx, hhash, hq]
      · simp only [Bool.not_eq_true] at hq
        simp [hx, hhash, hq]
    · have hhash' : r.payload_hash_first ≠ sha256_hex (canonical_json payload) := by
        simpa using hhash
      simp only [Bool.not_eq_true] at hhash
      simp [create_exception_and_quarantine, hx, hhash, hhash']

/-- Witness for C1 (amended): the conflicting `payB` against `dbA` raises the
exception count from 0 to 1. -/
theorem claim_C1_witness :
    (ingest_event dbA (some payB)).1.exceptions.length = dbA.exceptions.length + 1 :=
  (claim_C1 dbA payB evB rfl).mpr (Or.inr ⟨recA, rfl, by decide⟩)

/-! ## Replay canonicalization (claim C2) -/

/-- C2: after a successful `override_and_replay` (response
`.replay e i fh`, which rewrote both `payload_hash_first` and
`payload_hash_last` of the key's IdempotencyRecord to the final payload's
content hash and set its status to `processed`), ingesting that same final
payload — the chosen canonical RawEvent's Bronze payload merge-patched with
the body's `override_patch` — under the same `(tenant_id, idempotency_key)`
is answered 200 `result=duplicate`, not quarantined. -/
theorem claim_C2 (db db' : DB) (exId e : Nat) (body : ResolveIn) (ex : Exc)
    (raw : RawEvent) (i : Int) (fh : String) (ev : EventIn)
    (hres : resolve_exception db exId body = (db', .replay e i fh))
    (hex : findExc db.exceptions exId = some ex)
    (hraw : fetch_events_raw db.events_raw i = some raw)
    (hv : validateEvent (json_merge_patch raw.payload_json (.obj body.override_patch)) =
      some ev)
    (ht : ev.tenant_id = ex.tenant_id)
    (hk : ev.event_id = ex.idempotency_key) :
    (ingest_event db' (some (json_merge_patch raw.payload_json
        (.obj body.override_patch)))).2 =
      .ok { status_code := 200, tenant_id := ev.tenant_id, idempotency_key := ev.event_id,
            raw_id := db'.next_raw_id, result := "duplicate", exception_id := none,
            reason_code := none } := by
  unfold resolve_exception at hres
  revert hres
  split
  · intro hres
    have h2 := congrArg Prod.snd hres
    simp at h2
  · split
    · intro hres
      have h2 := congrArg Prod.snd hres
      simp at h2
    · rename_i ex' hex'
      split
      · intro hres
        have h2 := congrArg Prod.snd hres
        simp at h2
      · split
        · intro hres
          have h2 := congrArg Prod.snd hres
          simp at h2
        · rename_i ep hep
          split
          · intro hres
            have h2 := congrArg Prod.snd hres
            simp at h2
          · dsimp only
            split
            · intro hres
              have h2 := congrArg Prod.snd hres
              simp at h2
            · rename_i craw hcraw
              split
              · intro hres
                have h2 := congrArg Prod.snd hres
                simp at h2
              · split
                · intro hres
                  have h2 := congrArg Prod.snd hres
                  simp at h2
                · split
                  · intro hres
                    have h2 := congrArg Prod.snd hres
                    simp at h2
                  · intro hres
                    have hdb := congrArg Prod.fst hres
                    have hsnd := congrArg Prod.snd hres
                    simp only [ResolveResponse.replay.injEq] at hsnd
                    obtain ⟨he, hi, hf⟩ := hsnd
                    simp only at hdb
                    -- identify the internal exception row and canonical raw
                    rw [hex] at hex'
                    cases hex'
                    rw [hi] at hcraw
                    rw [hraw] at hcraw
                    cases hcraw
                    -- the ingest now runs against the explicitly known state
                    rw [← hdb]
                    simp only [ingest_event, hv]
                    rw [ht, hk]
                    rw [findRecord_updateRecord]
                    · rw [hep]
                      simp
                    · exact fun q => ⟨rfl, rfl⟩

/-- Witness for C2: resolve the `dbFoo` quarantine by replaying raw 1 patched
to `SALE`; re-submitting the patched payload is a 200 duplicate. -/
theorem claim_C2_witness :
    (ingest_event (resolve_exception dbFoo 1 bodyZero).1
      (some (json_merge_patch (fetchedRawFoo).payload_json
        (.obj bodyZero.override_patch)))).2 =
      .ok { status_code := 200, tenant_id := "T", idempotency_key := "e9", raw_id := 2,
            result := "duplicate", exception_id := none, reason_code := none } :=
  claim_C2 dbFoo (resolve_exception dbFoo 1 bodyZero).1 1 1 bodyZero exFoo
    fetchedRawFoo 1 (sha256_hex (canonical_json (json_merge_patch
      (fetchedRawFoo).payload_json (.obj bodyZero.override_patch)))) evFooPatched
    rfl rfl rfl rfl rfl rfl

end LedgerSafe
